import Mathlib

/-
Shallow embedding of the libwget OpenSSL TLS back-end
(src/libwget/ssl_openssl.c) for verification of its specification.

Conventions:
- C functions of the repository are translated one-to-one into Lean
  definitions carrying the same names.
- Calls into external collaborators (OpenSSL primitives, the directory
  reader, the HPKP database, the HTTP client) are parameters: a record of
  oracle functions describes the outcome of each external call, and the
  embedded code combines those outcomes exactly as the C control flow does.
- C `int` results are Lean `Int`; the WGET_E_* sentinels keep their values
  from wget.h.
- Loops whose termination depends on external outcomes take an explicit
  fuel argument and return `Option` (`none` = the fuel ran out, i.e. the C
  loop is still running).
-/

/- Error sentinels from wget.h. -/

def WGET_E_SUCCESS : Int := 0

def WGET_E_UNKNOWN : Int := -1

def WGET_E_MEMORY : Int := -2

def WGET_E_INVALID : Int := -3

def WGET_E_TIMEOUT : Int := -4

def WGET_E_CONNECT : Int := -5

def WGET_E_HANDSHAKE : Int := -6

def WGET_E_CERTIFICATE : Int := -7

/- ASCII case-insensitive string comparison (wget_strcasecmp_ascii).
The back-end only ever tests the comparison against 0 (equality), so the
embedding returns the equality Bool directly; a NULL first argument is
never equal to a literal, matching wget_strcasecmp_ascii(NULL, s) != 0. -/

def asciiLower (c : Char) : Char :=
  if 'A' ≤ c ∧ c ≤ 'Z' then Char.ofNat (c.toNat + 32) else c

def strcasecmpAsciiEq (a : Option String) (b : String) : Bool :=
  match a with
  | none => false
  | some s => s.data.map asciiLower == b.data.map asciiLower

/- The process-wide configuration block (struct _config).  Pointer-valued
fields are `Option`; the cache handles only matter through their being set
or not, so they are Bool. -/

structure SslConfig where
  secure_protocol : Option String
  ca_directory : Option String
  ca_file : Option String
  crl_file : Option String
  ocsp_server : Option String
  check_certificate : Bool
  check_hostname : Bool
  ocsp : Bool
  hpkp_cache : Bool
  deriving DecidableEq

/-
C1: verify_ocsp.

The chain is a list (leaf first), sk_X509_value out of range yields NULL
(here: `Option.none` via List.get?).  The outcome of one whole
verify_one_ocsp call (request construction, HTTP fetch, response check) is
abstracted into the oracle `ok`, applied to the two certificates the C code
passes as (cert, issuer).  The embedding also records the index pairs the
loop actually queries.

C source (while loop, i starts at 0, retval starts at 1):
    cert = sk_X509_value(certs, i);
    if (++i == cert_list_size) break;
    issuer_cert = sk_X509_value(certs, ++i);
    ... if (verify_one_ocsp(... cert, issuer_cert ...) < 0) retval = 0;
-/

def verify_ocsp_loop {α : Type} (ok : Option α → Option α → Bool) (chain : List α) :
    Nat → Nat → List (Nat × Nat) → Option (Nat × List (Nat × Nat))
  | 0, _, _ => none
  | fuel + 1, i, acc =>
    let certIdx := i
    if i + 1 = chain.length then
      some (1, acc.reverse)
    else
      let issuerIdx := i + 2
      if ok (chain.get? certIdx) (chain.get? issuerIdx) then
        verify_ocsp_loop ok chain fuel (i + 2) ((certIdx, issuerIdx) :: acc)
      else
        some (0, ((certIdx, issuerIdx) :: acc).reverse)

def verify_ocsp {α : Type} (ok : Option α → Option α → Bool) (chain : List α) :
    Option (Nat × List (Nat × Nat)) :=
  verify_ocsp_loop ok chain (chain.length + 1) 0 []

/- The pairing the specification asks for: every adjacent
(certificate, issuer) pair of a leaf-to-root chain of length n. -/

def spec_adjacent_pairs (n : Nat) : List (Nat × Nat) :=
  (List.range (n - 1)).map (fun k => (k, k + 1))

/-
C2: verify_one_hpkp / verify_hpkp.

Per certificate, the outside world produces either an SPKI-extraction
failure (i2d_PUBKEY <= 0) or a database answer
(wget_hpkp_db_check_pubkey: 1 match, 0 no pin, -1 lookup error,
-2 public key mismatch).
-/

inductive HpkpDbResult
  | pinMatch
  | noPin
  | dbError
  | pinMismatch
  deriving DecidableEq

inductive HpkpCertOutcome
  | spkiFail
  | db : HpkpDbResult → HpkpCertOutcome
  deriving DecidableEq

def verify_one_hpkp : HpkpCertOutcome → Int
  | .spkiFail => -1
  | .db .pinMatch => 0
  | .db .noPin => 1
  | .db .dbError => 0
  | .db .pinMismatch => -1

/- verify_hpkp: pin_ok starts at 0; per certificate
   if (retval >= 0) pin_ok = 1;  if (retval == 1) break; -/

def verify_hpkp_loop : List HpkpCertOutcome → Nat → Nat
  | [], pin_ok => pin_ok
  | c :: rest, pin_ok =>
    let r := verify_one_hpkp c
    let p2 := if 0 ≤ r then 1 else pin_ok
    if r = 1 then p2 else verify_hpkp_loop rest p2

def verify_hpkp (chain : List HpkpCertOutcome) : Nat :=
  verify_hpkp_loop chain 0

/- _openssl_revocation_check_fn: returns ocsp_ok & hpkp_ok.  The OCSP
decision is abstracted as `ocspEval` (the value verify_ocsp would yield);
the HPKP decision is computed from the per-certificate outcomes. -/

def openssl_revocation_check_fn (cfg : SslConfig) (ocspEval : Nat)
    (chain : List HpkpCertOutcome) : Nat :=
  (if cfg.ocsp then ocspEval else 1) &&& (if cfg.hpkp_cache then verify_hpkp chain else 1)

/-
C3: wget_ssl_init / wget_ssl_deinit.

State: the `_init` counter, whether the shared SSL_CTX is currently
allocated, and how many times it was created and freed.  `createOk`
abstracts SSL_CTX_new succeeding together with openssl_init returning 0.
-/

structure TlsEngineState where
  initCount : Nat
  ctxAlive : Bool
  ctxCreations : Nat
  ctxFrees : Nat
  deriving DecidableEq

def engineStart : TlsEngineState := ⟨0, false, 0, 0⟩

def wget_ssl_init (createOk : Bool) (s : TlsEngineState) : TlsEngineState :=
  if s.initCount = 0 then
    if createOk then
      { s with initCount := s.initCount + 1, ctxAlive := true,
               ctxCreations := s.ctxCreations + 1 }
    else s
  else s

def wget_ssl_deinit (s : TlsEngineState) : TlsEngineState :=
  let s1 := if s.initCount = 1 then
              { s with ctxAlive := false, ctxFrees := s.ctxFrees + 1 }
            else s
  if s1.initCount > 0 then { s1 with initCount := s1.initCount - 1 } else s1

inductive SslLifecycleOp
  | opInit
  | opDeinit
  deriving DecidableEq

def runSslLifecycle (s : TlsEngineState) : List SslLifecycleOp → TlsEngineState
  | [] => s
  | .opInit :: rest => runSslLifecycle (wget_ssl_init true s) rest
  | .opDeinit :: rest => runSslLifecycle (wget_ssl_deinit s) rest

/-
C5: openssl_load_trust_file(s) / _from_directory.

External outcomes: whether SSL_CTX_set_default_verify_paths succeeds,
the directory listing (none = opendir failed), and whether
SSL_CTX_load_verify_locations succeeds on a given full path.
-/

structure TrustEnv where
  defaultVerifyPathsOk : Bool
  readDir : String → Option (List String)
  loadVerifyLocationsOk : String → Bool

def openssl_load_trust_file (env : TrustEnv) (dir file : String) : Int :=
  if env.loadVerifyLocationsOk (dir ++ "/" ++ file) then 0 else -1

/- file name ends (ASCII case-insensitively) in ".pem", tested on the final
four bytes, only for names of length >= 4. -/

def hasPemSuffix (name : String) : Bool :=
  let l := name.data.map asciiLower
  decide (4 ≤ l.length) && (l.drop (l.length - 4) == ['.', 'p', 'e', 'm'])

def openssl_load_trust_files_from_directory (env : TrustEnv) (dirname : String) : Int :=
  match env.readDir dirname with
  | none => 0
  | some entries =>
    ((entries.filter
        (fun f => hasPemSuffix f && (openssl_load_trust_file env dirname f == 0))).length : Int)

def openssl_load_trust_files (env : TrustEnv) (dir : String) : Int :=
  if dir == "system" then
    if env.defaultVerifyPathsOk then 0
    else openssl_load_trust_files_from_directory env "/etc/ssl/certs"
  else openssl_load_trust_files_from_directory env dir

/-
C8 / C4: openssl_set_priorities and openssl_init.

The SSL_CTX is modelled by the fields the back-end code sets: protocol
version bounds, cipher list and verify mode.  `TlsBackend` gives the
outcome of each OpenSSL call (SSL_CTX_set_min_proto_version per version,
SSL_CTX_set_cipher_list per string) plus the compile-time fact whether the
linked OpenSSL supports TLS 1.3 (OPENSSL_VERSION_NUMBER >= 0x10101009).
-/

inductive ProtoVersion
  | unset
  | ssl3
  | tls1
  | tls1_1
  | tls1_2
  | tls1_3
  | tlsMax
  deriving DecidableEq

inductive VerifyMode
  | sslVerifyNone
  | sslVerifyPeerFail
  deriving DecidableEq

structure SslCtx where
  minProtoVersion : ProtoVersion
  maxProtoVersion : ProtoVersion
  cipherList : Option String
  verifyMode : VerifyMode
  deriving DecidableEq

def freshSslCtx : SslCtx := ⟨.unset, .unset, none, .sslVerifyNone⟩

structure TlsBackend where
  setMinOk : ProtoVersion → Bool
  cipherOk : String → Bool
  tls13Supported : Bool

def defaultOpensslCiphers : String := "HIGH:!aNULL:!RC4:!MD5:!SRP:!PSK"

/- The SET_MIN_VERSION macro: on failure the caller returns WGET_E_UNKNOWN
(modelled as `none`). -/

def setMinVersion (be : TlsBackend) (ctx : SslCtx) (v : ProtoVersion) : Option SslCtx :=
  if be.setMinOk v then some { ctx with minProtoVersion := v } else none

/- Which branch of the if/else-if cascade a priority string selects.
The order of the tests is the order of the C code; "TLSv1_2" is skipped
there (already the default minimum) and so ends in the default branch,
as do "AUTO" and a NULL string. -/

inductive PrioChoice
  | minSsl3
  | minTls1
  | minTls1_1
  | minTls1_3
  | pfs
  | verbatim
  | defaults
  deriving DecidableEq

def classify_priority (p : Option String) : PrioChoice :=
  if strcasecmpAsciiEq p "SSL" then .minSsl3
  else if strcasecmpAsciiEq p "TLSv1" then .minTls1
  else if strcasecmpAsciiEq p "TLSv1_1" then .minTls1_1
  else if strcasecmpAsciiEq p "TLSv1_3" then .minTls1_3
  else if strcasecmpAsciiEq p "PFS" then .pfs
  else if p.isSome && !(strcasecmpAsciiEq p "AUTO") && !(strcasecmpAsciiEq p "TLSv1_2") then .verbatim
  else .defaults

structure PrioResult where
  retval : Int
  ctx : SslCtx
  deriving DecidableEq

/- Final SSL_CTX_set_cipher_list step shared by every branch. -/

def finishCiphers (be : TlsBackend) (ctx : SslCtx) (ciphers : String) : PrioResult :=
  if be.cipherOk ciphers then ⟨0, { ctx with cipherList := some ciphers }⟩
  else ⟨WGET_E_INVALID, ctx⟩

def openssl_set_priorities (be : TlsBackend) (ctx0 : SslCtx) (protoStr : Option String) :
    PrioResult :=
  let ctx1 := if be.setMinOk .tls1_2 then { ctx0 with minProtoVersion := ProtoVersion.tls1_2 }
              else ctx0
  let ctx := { ctx1 with maxProtoVersion := ProtoVersion.tlsMax }
  match classify_priority protoStr with
  | .minSsl3 =>
    match setMinVersion be ctx .ssl3 with
    | none => ⟨WGET_E_UNKNOWN, ctx⟩
    | some c => finishCiphers be c defaultOpensslCiphers
  | .minTls1 =>
    match setMinVersion be ctx .tls1 with
    | none => ⟨WGET_E_UNKNOWN, ctx⟩
    | some c => finishCiphers be c defaultOpensslCiphers
  | .minTls1_1 =>
    match setMinVersion be ctx .tls1_1 with
    | none => ⟨WGET_E_UNKNOWN, ctx⟩
    | some c => finishCiphers be c defaultOpensslCiphers
  | .minTls1_3 =>
    if be.tls13Supported then
      match setMinVersion be ctx .tls1_3 with
      | none => ⟨WGET_E_UNKNOWN, ctx⟩
      | some c => finishCiphers be c defaultOpensslCiphers
    else
      finishCiphers be ctx defaultOpensslCiphers
  | .pfs => finishCiphers be ctx "HIGH:!aNULL:!RC4:!MD5:!SRP:!PSK:!kRSA"
  | .verbatim => finishCiphers be ctx (protoStr.getD "")
  | .defaults => finishCiphers be ctx defaultOpensslCiphers

/- openssl_load_crl: external outcomes of X509_load_crl_file and
X509_STORE_set_flags. -/

structure CrlEnv where
  loadCrlFileOk : Bool
  setFlagsOk : Bool
  deriving DecidableEq

def openssl_load_crl (env : CrlEnv) : Int :=
  if env.loadCrlFileOk = false then WGET_E_UNKNOWN
  else if env.setFlagsOk = false then WGET_E_UNKNOWN
  else 0

/- _config.ca_directory && *_config.ca_directory -/

def caDirActive (cfg : SslConfig) : Bool :=
  match cfg.ca_directory with
  | none => false
  | some d => d ≠ ""

structure InitResult where
  retval : Int
  ctx : SslCtx
  revocationInstalled : Bool
  deriving DecidableEq

/-
openssl_init.  The ca_file step only logs on failure and changes none of
the modelled state, so it is omitted; X509_STORE_set_check_revocation is
recorded in `revocationInstalled`.  `storeOk` is SSL_CTX_get_cert_store
returning non-NULL.
-/

def openssl_init (cfg : SslConfig) (be : TlsBackend) (env : TrustEnv) (crl : CrlEnv)
    (storeOk : Bool) (ctx0 : SslCtx) : InitResult :=
  if cfg.check_certificate = false then
    ⟨0, { ctx0 with verifyMode := VerifyMode.sslVerifyNone }, false⟩
  else if storeOk = false then
    ⟨WGET_E_UNKNOWN, ctx0, false⟩
  else if caDirActive cfg then
    let r1 := openssl_load_trust_files env (cfg.ca_directory.getD "")
    if r1 < 0 then ⟨r1, ctx0, false⟩
    else
      let crlRes := if cfg.crl_file.isSome then openssl_load_crl crl else 0
      if crlRes < 0 then ⟨crlRes, ctx0, false⟩
      else
        let ctx1 := { ctx0 with verifyMode := VerifyMode.sslVerifyPeerFail }
        let pr := openssl_set_priorities be ctx1 cfg.secure_protocol
        ⟨pr.retval, pr.ctx, true⟩
  else
    let pr := openssl_set_priorities be ctx0 cfg.secure_protocol
    ⟨pr.retval, pr.ctx, true⟩

/-
C6: check_ocsp_response / print_ocsp_cert_status /
get_printable_ocsp_reason_desc.

The outcome of each OpenSSL OCSP call on the response body is a field of
`OcspResponseModel`: d2i parse success, OCSP_response_status value,
OCSP_response_get1_basic success, OCSP_check_nonce passing (non-zero
return), OCSP_resp_find_status yielding a (status, reason) entry for the
CertID, OCSP_check_validity success, OCSP_basic_verify success (> 0).
The status codes keep OpenSSL's numeric values.  The second component of
check_ocsp_response collects the debug lines of the certificate-status
printer and the verification-error messages.
-/

def OCSP_RESPONSE_STATUS_SUCCESSFUL : Int := 0

def V_OCSP_CERTSTATUS_GOOD : Int := 0

def V_OCSP_CERTSTATUS_REVOKED : Int := 1

def V_OCSP_CERTSTATUS_UNKNOWN : Int := 2

structure OcspResponseModel where
  parses : Bool
  responseStatus : Int
  basicOk : Bool
  nonceMatch : Bool
  findStatus : Option (Int × Int)
  validityOk : Bool
  signatureOk : Bool
  deriving DecidableEq

/- OCSP_REVOKED_STATUS_* values: NOSTATUS -1, UNSPECIFIED 0,
KEYCOMPROMISE 1, CACOMPROMISE 2, AFFILIATIONCHANGED 3, SUPERSEDED 4,
CESSATIONOFOPERATION 5, CERTIFICATEHOLD 6, REMOVEFROMCRL 8. -/

def get_printable_ocsp_reason_desc (reason : Int) : Option String :=
  if reason = -1 then some "not given"
  else if reason = 0 then some "unspecified"
  else if reason = 1 then some "key compromise"
  else if reason = 2 then some "CA compromise"
  else if reason = 3 then some "affiliation changed"
  else if reason = 4 then some "superseded"
  else if reason = 5 then some "cessation of operation"
  else if reason = 6 then some "certificate hold"
  else if reason = 8 then some "remove from CRL"
  else none

/- print_ocsp_cert_status: returns the status it was given and the debug
lines it emits; in the revoked branch the reason line is printed whether or
not the debug BIO could be created. -/

def print_ocsp_cert_status (status reason : Int) : Int × List String :=
  if status = V_OCSP_CERTSTATUS_GOOD then (status, ["good"])
  else if status = V_OCSP_CERTSTATUS_UNKNOWN then (status, ["unknown"])
  else if status = V_OCSP_CERTSTATUS_REVOKED then
    (status, ["revoked", "reason: " ++ (get_printable_ocsp_reason_desc reason).getD "unknown reason"])
  else (status, ["invalid status code"])

def check_ocsp_response (m : OcspResponseModel) : Int × List String :=
  if m.parses = false then (-1, [])
  else if m.responseStatus ≠ OCSP_RESPONSE_STATUS_SUCCESSFUL then (-1, [])
  else if m.basicOk = false then (-1, [])
  else if m.nonceMatch = false then (-1, ["OCSP verification error: nonces do not match"])
  else
    match m.findStatus with
    | none => (-1, [])
    | some sr =>
      let pr := print_ocsp_cert_status sr.1 sr.2
      if pr.1 ≠ V_OCSP_CERTSTATUS_GOOD then (-1, pr.2)
      else if m.validityOk = false then
        (-1, pr.2 ++ ["OCSP verification error: response is out of date"])
      else if m.signatureOk = false then
        (-1, pr.2 ++ ["OCSP verification error: response signature could not be verified"])
      else (0, pr.2)

/- The acceptance condition in the words of the specification: response
parses, responseStatus successful, nonce matches, status entry for the
CertID exists and is good, validity window contains now, signature
verifies. -/

def ocsp_response_acceptable (m : OcspResponseModel) : Prop :=
  m.parses = true ∧ m.responseStatus = OCSP_RESPONSE_STATUS_SUCCESSFUL ∧
  m.basicOk = true ∧ m.nonceMatch = true ∧
  (∃ r, m.findStatus = some (V_OCSP_CERTSTATUS_GOOD, r)) ∧
  m.validityOk = true ∧ m.signatureOk = true

/-
C7 / C10: ssl_transfer and the read/write wrappers.

The socket/back-end behaviour is an oracle: `rw k` is the outcome of the
k-th SSL_read/SSL_write call (return value plus SSL_get_error
classification for negative returns), `ready w r wr` the result of the
w-th wget_ready_2_transfer call under read/write interest flags r and wr.
The trace records the result and how many read/write and readiness calls
were made.  The buffer itself and the INT_MAX clamp of `count` are
absorbed into the oracle (count is only observed through the `count == 0`
early return).
-/

inductive SslErrorKind
  | wantRead
  | wantWrite
  | otherErr
  deriving DecidableEq

structure RwResult where
  retval : Int
  err : SslErrorKind
  deriving DecidableEq

structure TransferTrace where
  result : Int
  rwCalls : Nat
  waitCalls : Nat
  deriving DecidableEq

def ssl_transfer_loop (rw : Nat → RwResult) (ready : Nat → Bool → Bool → Int)
    (timeout : Int) :
    Nat → Nat → Nat → Bool → Bool → Option TransferTrace
  | 0, _, _, _, _ => none
  | fuel + 1, k, w, opRead, opWrite =>
    let wr : Int × Nat := if timeout ≠ 0 then (ready w opRead opWrite, w + 1) else (1, w)
    if wr.1 < 0 then some ⟨wr.1, k, wr.2⟩
    else if wr.1 = 0 then some ⟨WGET_E_TIMEOUT, k, wr.2⟩
    else
      let res := rw k
      if res.retval < 0 then
        match res.err with
        | .otherErr => some ⟨WGET_E_HANDSHAKE, k + 1, wr.2⟩
        | _ =>
          if timeout = 0 then some ⟨0, k + 1, wr.2⟩
          else ssl_transfer_loop rw ready timeout fuel (k + 1) wr.2 true true
      else some ⟨res.retval, k + 1, wr.2⟩

def ssl_transfer (rw : Nat → RwResult) (ready : Nat → Bool → Bool → Int)
    (wantRead : Bool) (session : Option Unit) (fdOk : Bool)
    (timeoutArg : Int) (count : Nat) (fuel : Nat) : Option TransferTrace :=
  if count = 0 then some ⟨0, 0, 0⟩
  else if session.isNone then some ⟨WGET_E_INVALID, 0, 0⟩
  else if fdOk = false then some ⟨WGET_E_UNKNOWN, 0, 0⟩
  else
    let timeout := if timeoutArg < -1 then -1 else timeoutArg
    ssl_transfer_loop rw ready timeout fuel 0 0 wantRead (!wantRead)

def wget_ssl_read_timeout (rw : Nat → RwResult) (ready : Nat → Bool → Bool → Int)
    (fdOk : Bool) (session : Option Unit) (count : Nat) (timeout : Int)
    (fuel : Nat) : Option Int :=
  (ssl_transfer rw ready true session fdOk timeout count fuel).map
    (fun t => if t.result = WGET_E_HANDSHAKE then WGET_E_UNKNOWN else t.result)

def wget_ssl_write_timeout (rw : Nat → RwResult) (ready : Nat → Bool → Bool → Int)
    (fdOk : Bool) (session : Option Unit) (count : Nat) (timeout : Int)
    (fuel : Nat) : Option Int :=
  (ssl_transfer rw ready false session fdOk timeout count fuel).map
    (fun t => if t.result = WGET_E_HANDSHAKE then WGET_E_UNKNOWN else t.result)

/-
C9: wget_ssl_open.

The TCP connection object carries the fields the function reads or
writes.  The hostname is only passed on to SNI / verification / session
lookup (logging and oracles), so it is not modelled.  `OpenEnv` holds the
outcome of every external call; `engineInitDone` is the _init flag at
entry (lazy wget_ssl_init is recorded in `lazyInitRan`).  The handshake
do/while is a fuel loop: `ready k` and `connectResult k` /
`connectError k` describe the k-th iteration.
-/

structure WgetTcp where
  sockfd : Int
  connect_timeout : Int
  ssl_session : Option Unit
  deriving DecidableEq

structure OpenEnv where
  sslNewOk : Bool
  setFdOk : Bool
  exIndexOk : Bool
  newExDataOk : Bool
  setExDataOk : Bool
  resumeResult : Int
  ready : Nat → Int
  connectResult : Nat → Int
  connectError : Nat → SslErrorKind
  certVerifyFailed : Bool
  sessionReused : Bool

/- wait_2_read_and_write: a 0 from the readiness primitive becomes
WGET_E_TIMEOUT. -/

def wait_2_read_and_write (readyRes : Int) : Int :=
  if readyRes = 0 then WGET_E_TIMEOUT else readyRes

inductive HandshakeOutcome
  | waitFail : Int → HandshakeOutcome
  | connected
  | connectFail
  deriving DecidableEq

def ssl_connect_loop (env : OpenEnv) (useTimeout : Bool) :
    Nat → Nat → Option HandshakeOutcome
  | 0, _ => none
  | fuel + 1, k =>
    if useTimeout ∧ wait_2_read_and_write (env.ready k) < 0 then
      some (.waitFail (wait_2_read_and_write (env.ready k)))
    else if 0 < env.connectResult k then some .connected
    else
      match env.connectError k with
      | .wantRead => ssl_connect_loop env useTimeout fuel (k + 1)
      | .wantWrite => ssl_connect_loop env useTimeout fuel (k + 1)
      | .otherErr => some .connectFail

structure OpenResult where
  retval : Int
  tcp : Option WgetTcp
  sslAllocated : Bool
  sslFreed : Bool
  lazyInitRan : Bool
  deriving DecidableEq

def wget_ssl_open (env : OpenEnv) (engineInitDone : Bool) (fuel : Nat)
    (tcpOpt : Option WgetTcp) : Option OpenResult :=
  match tcpOpt with
  | none => some ⟨WGET_E_INVALID, none, false, false, false⟩
  | some tcp =>
    if tcp.sockfd < 0 then some ⟨WGET_E_INVALID, some tcp, false, false, false⟩
    else if env.sslNewOk = false then
      some ⟨WGET_E_UNKNOWN, some tcp, false, false, !engineInitDone⟩
    else if env.setFdOk = false then
      some ⟨WGET_E_UNKNOWN, some tcp, true, true, !engineInitDone⟩
    else if (env.exIndexOk && env.newExDataOk && env.setExDataOk) = false then
      some ⟨WGET_E_UNKNOWN, some tcp, true, true, !engineInitDone⟩
    else
      match ssl_connect_loop env (tcp.connect_timeout != 0) fuel 0 with
      | none => none
      | some (.waitFail e) => some ⟨e, some tcp, true, true, !engineInitDone⟩
      | some .connectFail =>
        some ⟨if env.certVerifyFailed then WGET_E_CERTIFICATE else WGET_E_HANDSHAKE,
              some tcp, true, true, !engineInitDone⟩
      | some .connected =>
        some ⟨WGET_E_SUCCESS, some { tcp with ssl_session := some () }, true, false,
              !engineInitDone⟩

/- Concrete environments used to evaluate the embedded code at specific
inputs (counterexamples and witnesses). -/

def beAllOk : TlsBackend := ⟨fun _ => true, fun _ => true, true⟩

def beNo13 : TlsBackend := ⟨fun _ => true, fun _ => true, false⟩

def beReject : TlsBackend := ⟨fun _ => true, fun s => !(s == "NOT-A-CIPHER"), true⟩

def trustEnvAllOk : TrustEnv := ⟨true, fun _ => some [], fun _ => true⟩

def trustEnvUnopenable : TrustEnv := ⟨true, fun _ => none, fun _ => false⟩

def trustEnvEmptyDir : TrustEnv := ⟨true, fun _ => some [], fun _ => false⟩

def crlEnvOk : CrlEnv := ⟨true, true⟩

/- check_certificate on, no CA directory configured. -/

def cfgNoDir : SslConfig :=
  ⟨some "AUTO", none, none, none, none, true, true, true, false⟩

def cfgDisabled : SslConfig := { cfgNoDir with check_certificate := false }

def cfgWithDir : SslConfig := { cfgNoDir with ca_directory := some "/certs" }

def cfgBadPrio : SslConfig := { cfgNoDir with secure_protocol := some "NOT-A-CIPHER" }

def cfgHpkp : SslConfig := { cfgWithDir with hpkp_cache := true }

/- An OCSP response that is well-formed but reports the certificate
revoked (reason 1 = key compromise). -/

def mRevoked : OcspResponseModel := ⟨true, 0, true, true, some (1, 1), true, true⟩

def mGood : OcspResponseModel := ⟨true, 0, true, true, some (0, -1), true, true⟩

/- A socket whose read/write calls always report SSL_ERROR_WANT_READ and
whose readiness polls never fire. -/

def rwWantRead : Nat → RwResult := fun _ => ⟨-1, .wantRead⟩

def readyNever : Nat → Bool → Bool → Int := fun _ _ _ => 0

def rwOk7 : Nat → RwResult := fun _ => ⟨7, .wantRead⟩

def readyAlways : Nat → Bool → Bool → Int := fun _ _ _ => 1

/- Handshake environments: one where SSL_connect succeeds on the first
attempt, one where it fails fatally on the first attempt. -/

def envC9ok : OpenEnv :=
  ⟨true, true, true, true, true, 0, fun _ => 1, fun _ => 1, fun _ => .otherErr, false, false⟩

def envC9fail : OpenEnv :=
  ⟨true, true, true, true, true, 0, fun _ => 1, fun _ => -1, fun _ => .otherErr, false, false⟩

def tcpC9 : WgetTcp := ⟨5, 0, none⟩

def tcpC9bad : WgetTcp := ⟨-1, 0, none⟩

def cfgC5 : SslConfig := { cfgNoDir with ca_directory := some "/no/such/dir" }

/-
Theorems.
-/

/-- Claim C1, behaviour of the code at the failing input: on a
three-certificate chain (leaf, intermediate, root) with every OCSP query
succeeding, verify_ocsp terminates with decision 1 after a single query
pairing certificate 0 with certificate 2 — it does not query the adjacent
(cert, issuer) pairs (0,1) and (1,2) the specification demands. -/
theorem claim_C1_code_eval :
    verify_ocsp (fun _ _ => true) [(0 : Nat), 1, 2] = some (1, [(0, 2)]) ∧
    spec_adjacent_pairs 3 = [(0, 1), (1, 2)] ∧
    verify_ocsp (fun _ _ => true) [(0 : Nat), 1, 2] ≠ some (1, spec_adjacent_pairs 3) := by
  decide

/-- Helper for C2: once pin_ok is 1 it stays 1 through the rest of the
verify_hpkp loop. -/
theorem verify_hpkp_loop_pinned (chain : List HpkpCertOutcome) :
    verify_hpkp_loop chain 1 = 1 := by
  induction chain with
  | nil => rfl
  | cons c rest ih =>
    cases c with
    | spkiFail => simpa [verify_hpkp_loop, verify_one_hpkp] using ih
    | db d => cases d <;> simp [verify_hpkp_loop, verify_one_hpkp, ih]

/-- Helper for C2: verify_hpkp returns 0 exactly when every certificate's
outcome maps to a negative verify_one_hpkp result (mismatch or SPKI
extraction failure). -/
theorem verify_hpkp_zero_iff (chain : List HpkpCertOutcome) :
    verify_hpkp chain = 0 ↔ ∀ c ∈ chain, verify_one_hpkp c < 0 := by
  unfold verify_hpkp
  induction chain with
  | nil => simp [verify_hpkp_loop]
  | cons c rest ih =>
    cases c with
    | spkiFail => simp [verify_hpkp_loop, verify_one_hpkp, ih]
    | db d =>
      cases d <;> simp [verify_hpkp_loop, verify_one_hpkp, ih, verify_hpkp_loop_pinned]

/-- Claim C2 is false on the code: a chain whose first certificate's HPKP
lookup returns mismatch but whose second returns match passes verify_hpkp
(returns 1, not 0). -/
theorem claim_C2_counterexample :
    verify_hpkp [HpkpCertOutcome.db .pinMismatch, HpkpCertOutcome.db .pinMatch] = 1 ∧
    verify_hpkp [HpkpCertOutcome.db .pinMismatch, HpkpCertOutcome.db .pinMatch] ≠ 0 := by
  decide

/-- Claim C2 (amended): with an HPKP cache configured, verify_hpkp returns
0 — and then the revocation callback returns 0, aborting the handshake —
exactly when every certificate of the chain yields a mismatch (or an SPKI
extraction failure); the chain passes as soon as one certificate returns
match, no-pin-on-file, or a lookup error. -/
theorem claim_C2_amended (chain : List HpkpCertOutcome) (cfg : SslConfig)
    (ocspEval : Nat) (hcache : cfg.hpkp_cache = true) :
    (verify_hpkp chain = 0 ↔ ∀ c ∈ chain, verify_one_hpkp c < 0) ∧
    (verify_hpkp chain = 0 → openssl_revocation_check_fn cfg ocspEval chain = 0) := by
  refine ⟨verify_hpkp_zero_iff chain, fun h0 => ?_⟩
  simp [openssl_revocation_check_fn, hcache, h0]

/-- Witness for C2 at a concrete input: an all-mismatch chain makes the
revocation callback return 0. -/
theorem claim_C2_witness :
    cfgHpkp.hpkp_cache = true ∧
    openssl_revocation_check_fn cfgHpkp 1 [HpkpCertOutcome.db .pinMismatch] = 0 :=
  ⟨rfl, (claim_C2_amended [HpkpCertOutcome.db .pinMismatch] cfgHpkp 1 rfl).2 rfl⟩

/-- Claim C3, behaviour of the code at the failing input: on the balanced
sequence init, init, deinit, deinit (creation succeeding) the counter is
still 1 after the second init, and already the first deinit — not the
last — frees the shared context; the final deinit changes nothing. -/
theorem claim_C3_code_eval :
    (runSslLifecycle engineStart [.opInit, .opInit]).initCount = 1 ∧
    (runSslLifecycle engineStart [.opInit, .opInit, .opDeinit]).ctxAlive = false ∧
    (runSslLifecycle engineStart [.opInit, .opInit, .opDeinit]).ctxFrees = 1 ∧
    runSslLifecycle engineStart [.opInit, .opInit, .opDeinit, .opDeinit] =
      runSslLifecycle engineStart [.opInit, .opInit, .opDeinit] := by
  decide

/-- Claim C5, behaviour of the code at the failing input: when the CA
directory cannot be opened, openssl_load_trust_files_from_directory
returns 0 — the same value as for a directory that opens but holds no
certificates — openssl_load_trust_files passes that 0 on, and
openssl_init completes successfully instead of aborting. -/
theorem claim_C5_code_eval :
    openssl_load_trust_files_from_directory trustEnvUnopenable "/no/such/dir" = 0 ∧
    openssl_load_trust_files_from_directory trustEnvUnopenable "/no/such/dir" =
      openssl_load_trust_files_from_directory trustEnvEmptyDir "/no/such/dir" ∧
    openssl_load_trust_files trustEnvUnopenable "/no/such/dir" = 0 ∧
    (openssl_init cfgC5 beAllOk trustEnvUnopenable crlEnvOk true freshSslCtx).retval = 0 := by
  decide

/-- Claim C7 is false on the code: with timeout 0 and a socket whose first
read attempt reports want-read, ssl_transfer does return 0 without any
readiness wait, but only after invoking the back-end read once (trace
⟨0, 1, 0⟩, not ⟨0, 0, 0⟩). -/
theorem claim_C7_counterexample :
    ssl_transfer rwWantRead readyNever true (some ()) true 0 4 1 = some ⟨0, 1, 0⟩ ∧
    ssl_transfer rwWantRead readyNever true (some ()) true 0 4 1 ≠ some ⟨0, 0, 0⟩ := by
  decide

/-- Claim C7 (amended): with timeout 0, a non-zero count and the back-end
reporting want-read or want-write on its first read/write attempt,
ssl_transfer returns 0 after exactly that one read/write invocation and
performs no readiness wait. -/
theorem claim_C7_amended (rw : Nat → RwResult) (ready : Nat → Bool → Bool → Int)
    (wantRead : Bool) (count fuel : Nat)
    (hc : count ≠ 0) (hf : 0 < fuel) (hneg : (rw 0).retval < 0)
    (hwant : (rw 0).err = .wantRead ∨ (rw 0).err = .wantWrite) :
    ssl_transfer rw ready wantRead (some ()) true 0 count fuel = some ⟨0, 1, 0⟩ := by
  cases fuel with
  | zero => exact absurd hf (by omega)
  | succ f =>
    rcases hwant with h | h <;>
      simp [ssl_transfer, ssl_transfer_loop, hc, h, hneg]

/-- Witness for C7 at a concrete input. -/
theorem claim_C7_witness :
    ssl_transfer rwWantRead readyNever true (some ()) true 0 5 2 = some ⟨0, 1, 0⟩ :=
  claim_C7_amended rwWantRead readyNever true 5 2 (by decide) (by decide) (by decide)
    (Or.inl rfl)

/-- Claim C10: a zero count makes ssl_transfer (and both public wrappers)
return 0 immediately, even on a null session — the zero-count check
precedes the null-session check, and the INVALID error is only produced
for a null session when the count is non-zero. -/
theorem claim_C10_zero_count (rw : Nat → RwResult) (ready : Nat → Bool → Bool → Int)
    (fdOk : Bool) (timeout : Int) (fuel : Nat) :
    (∀ (wantRead : Bool) (session : Option Unit),
      ssl_transfer rw ready wantRead session fdOk timeout 0 fuel = some ⟨0, 0, 0⟩) ∧
    (∀ (wantRead : Bool) (count : Nat), count ≠ 0 →
      ssl_transfer rw ready wantRead none fdOk timeout count fuel =
        some ⟨WGET_E_INVALID, 0, 0⟩) ∧
    wget_ssl_read_timeout rw ready fdOk none 0 timeout fuel = some 0 ∧
    wget_ssl_write_timeout rw ready fdOk none 0 timeout fuel = some 0 := by
  refine ⟨fun w s => by simp [ssl_transfer],
          fun w c hc => by simp [ssl_transfer, hc],
          ?_, ?_⟩ <;>
    simp [wget_ssl_read_timeout, wget_ssl_write_timeout, ssl_transfer, WGET_E_HANDSHAKE]

/-- Witness for C10 at concrete inputs. -/
theorem claim_C10_witness :
    ssl_transfer rwOk7 readyAlways true none true 7 5 3 = some ⟨WGET_E_INVALID, 0, 0⟩ ∧
    ssl_transfer rwOk7 readyAlways false none true 7 0 3 = some ⟨0, 0, 0⟩ ∧
    wget_ssl_read_timeout rwOk7 readyAlways true none 0 7 3 = some 0 :=
  ⟨(claim_C10_zero_count rwOk7 readyAlways true 7 3).2.1 true 5 (by decide),
   (claim_C10_zero_count rwOk7 readyAlways true 7 3).1 false none,
   (claim_C10_zero_count rwOk7 readyAlways true 7 3).2.2.1⟩

/-- Helper for C6: print_ocsp_cert_status hands the status value back
unchanged. -/
theorem print_ocsp_cert_status_fst (s r : Int) : (print_ocsp_cert_status s r).1 = s := by
  unfold print_ocsp_cert_status
  split_ifs <;> rfl

/-- Claim C6: check_ocsp_response accepts (returns 0) exactly when the
body parses, the responseStatus is successful, the nonce check passes, the
status entry for the CertID exists and is good, the validity window check
passes and the signature verifies — rejecting (-1) in every other case —
and a revoked status entry additionally puts the decoded revocation reason
into the debug log. -/
theorem claim_C6_check_ocsp (m : OcspResponseModel) :
    ((check_ocsp_response m).1 = 0 ↔ ocsp_response_acceptable m) ∧
    (∀ r : Int, m.findStatus = some (V_OCSP_CERTSTATUS_REVOKED, r) → m.parses = true →
      m.responseStatus = OCSP_RESPONSE_STATUS_SUCCESSFUL → m.basicOk = true →
      m.nonceMatch = true →
      (check_ocsp_response m).1 = -1 ∧
      ("reason: " ++ (get_printable_ocsp_reason_desc r).getD "unknown reason") ∈
        (check_ocsp_response m).2) := by
  constructor
  · rcases m with ⟨pa, rs, bo, nm, fs, vo, so⟩
    cases pa <;> cases bo <;> cases nm <;> cases vo <;> cases so <;>
      rcases fs with _ | ⟨s, r⟩ <;>
        simp [check_ocsp_response, ocsp_response_acceptable,
          OCSP_RESPONSE_STATUS_SUCCESSFUL, V_OCSP_CERTSTATUS_GOOD,
          print_ocsp_cert_status_fst] <;>
        split_ifs <;> simp_all
  · intro r hfs hpa hrs hbo hnm
    simp [check_ocsp_response, hfs, hpa, hrs, hbo, hnm, print_ocsp_cert_status,
      OCSP_RESPONSE_STATUS_SUCCESSFUL, V_OCSP_CERTSTATUS_GOOD,
      V_OCSP_CERTSTATUS_REVOKED, V_OCSP_CERTSTATUS_UNKNOWN]

/-- Witness for C6 at a concrete revoked response. -/
theorem claim_C6_witness :
    (check_ocsp_response mRevoked).1 = -1 ∧
    ("reason: " ++ (get_printable_ocsp_reason_desc 1).getD "unknown reason") ∈
      (check_ocsp_response mRevoked).2 :=
  (claim_C6_check_ocsp mRevoked).2 1 rfl rfl rfl rfl rfl

/-- Helper for C4: openssl_set_priorities never touches the verify mode of
the context it is given. -/
theorem openssl_set_priorities_verifyMode (be : TlsBackend) (c : SslCtx) (p : Option String) :
    (openssl_set_priorities be c p).ctx.verifyMode = c.verifyMode := by
  unfold openssl_set_priorities
  cases hcl : classify_priority p <;>
    simp only [hcl, setMinVersion, finishCiphers] <;>
    split_ifs <;> rfl

/-- Claim C4 is false on the code: with check_certificate enabled but no
CA directory configured, openssl_init succeeds yet never sets the verify
mode to peer-and-fail — it stays at the fresh context default. -/
theorem claim_C4_counterexample :
    (openssl_init cfgNoDir beAllOk trustEnvAllOk crlEnvOk true freshSslCtx).retval = 0 ∧
    (openssl_init cfgNoDir beAllOk trustEnvAllOk crlEnvOk true freshSslCtx).ctx.verifyMode ≠
      VerifyMode.sslVerifyPeerFail := by
  decide

/-- Claim C4 (amended): when check_certificate is disabled, openssl_init
sets the verify mode to none, succeeds, and does not install the
revocation callback; when check_certificate is enabled AND a non-empty CA
directory is configured, a successful openssl_init leaves the verify mode
at peer-and-fail-if-no-peer-cert with the revocation callback
installed. -/
theorem claim_C4_amended (cfg : SslConfig) (be : TlsBackend) (env : TrustEnv)
    (crl : CrlEnv) (storeOk : Bool) (ctx0 : SslCtx) :
    (cfg.check_certificate = false →
      openssl_init cfg be env crl storeOk ctx0 =
        ⟨0, { ctx0 with verifyMode := VerifyMode.sslVerifyNone }, false⟩) ∧
    (cfg.check_certificate = true → storeOk = true → caDirActive cfg = true →
      (openssl_init cfg be env crl storeOk ctx0).retval = 0 →
      (openssl_init cfg be env crl storeOk ctx0).ctx.verifyMode =
        VerifyMode.sslVerifyPeerFail ∧
      (openssl_init cfg be env crl storeOk ctx0).revocationInstalled = true) := by
  constructor
  · intro h
    simp [openssl_init, h]
  · intro hcc hst hdir hret
    rw [openssl_init] at hret ⊢
    simp only [hcc, hst, hdir, Bool.true_eq_false, if_false, if_true] at hret ⊢
    split_ifs at hret ⊢
    all_goals first
      | (simp at hret; omega)
      | omega
      | exact ⟨openssl_set_priorities_verifyMode be _ _, rfl⟩

/-- Witness for C4 at concrete configurations: certificate checking
disabled, and certificate checking enabled with a CA directory. -/
theorem claim_C4_witness :
    openssl_init cfgDisabled beAllOk trustEnvAllOk crlEnvOk true freshSslCtx =
      ⟨0, { freshSslCtx with verifyMode := VerifyMode.sslVerifyNone }, false⟩ ∧
    ((openssl_init cfgWithDir beAllOk trustEnvAllOk crlEnvOk true freshSslCtx).ctx.verifyMode =
        VerifyMode.sslVerifyPeerFail ∧
      (openssl_init cfgWithDir beAllOk trustEnvAllOk crlEnvOk true
          freshSslCtx).revocationInstalled = true) :=
  ⟨(claim_C4_amended cfgDisabled beAllOk trustEnvAllOk crlEnvOk true freshSslCtx).1 rfl,
   (claim_C4_amended cfgWithDir beAllOk trustEnvAllOk crlEnvOk true freshSslCtx).2
     rfl rfl (by decide) (by decide)⟩

/-- Claim C8: openssl_set_priorities starts from minimum TLS 1.2, maximum
the back-end's highest version and the default cipher list; "SSL",
"TLSv1", "TLSv1_1" lower the minimum, "TLSv1_3" raises it (or logs and
keeps 1.2 when the back-end lacks TLS 1.3), "TLSv1_2" and "AUTO" (matched
case-insensitively) keep the defaults, "PFS" appends "!kRSA" to the
default cipher list, any other non-empty string becomes the cipher list
verbatim, and a cipher list the back-end rejects yields WGET_E_INVALID,
which openssl_init returns, aborting initialization. -/
theorem claim_C8_priorities (be : TlsBackend) (ctx0 : SslCtx)
    (hmin : be.setMinOk .tls1_2 = true) :
    (be.cipherOk defaultOpensslCiphers = true →
      openssl_set_priorities be ctx0 (some "AUTO") =
        ⟨0, { ctx0 with
              minProtoVersion := ProtoVersion.tls1_2
              maxProtoVersion := ProtoVersion.tlsMax
              cipherList := some defaultOpensslCiphers }⟩ ∧
      openssl_set_priorities be ctx0 (some "TLSv1_2") =
        openssl_set_priorities be ctx0 (some "AUTO") ∧
      openssl_set_priorities be ctx0 (some "tlsV1_2") =
        openssl_set_priorities be ctx0 (some "AUTO")) ∧
    (be.cipherOk defaultOpensslCiphers = true → be.setMinOk .ssl3 = true →
      openssl_set_priorities be ctx0 (some "SSL") =
        ⟨0, { ctx0 with
              minProtoVersion := ProtoVersion.ssl3
              maxProtoVersion := ProtoVersion.tlsMax
              cipherList := some defaultOpensslCiphers }⟩) ∧
    (be.cipherOk defaultOpensslCiphers = true → be.setMinOk .tls1 = true →
      openssl_set_priorities be ctx0 (some "TLSv1") =
        ⟨0, { ctx0 with
              minProtoVersion := ProtoVersion.tls1
              maxProtoVersion := ProtoVersion.tlsMax
              cipherList := some defaultOpensslCiphers }⟩) ∧
    (be.cipherOk defaultOpensslCiphers = true → be.setMinOk .tls1_1 = true →
      openssl_set_priorities be ctx0 (some "TLSv1_1") =
        ⟨0, { ctx0 with
              minProtoVersion := ProtoVersion.tls1_1
              maxProtoVersion := ProtoVersion.tlsMax
              cipherList := some defaultOpensslCiphers }⟩) ∧
    (be.cipherOk defaultOpensslCiphers = true → be.tls13Supported = true →
      be.setMinOk .tls1_3 = true →
      openssl_set_priorities be ctx0 (some "TLSv1_3") =
        ⟨0, { ctx0 with
              minProtoVersion := ProtoVersion.tls1_3
              maxProtoVersion := ProtoVersion.tlsMax
              cipherList := some defaultOpensslCiphers }⟩) ∧
    (be.cipherOk defaultOpensslCiphers = true → be.tls13Supported = false →
      openssl_set_priorities be ctx0 (some "TLSv1_3") =
        ⟨0, { ctx0 with
              minProtoVersion := ProtoVersion.tls1_2
              maxProtoVersion := ProtoVersion.tlsMax
              cipherList := some defaultOpensslCiphers }⟩) ∧
    (be.cipherOk (defaultOpensslCiphers ++ ":!kRSA") = true →
      openssl_set_priorities be ctx0 (some "PFS") =
        ⟨0, { ctx0 with
              minProtoVersion := ProtoVersion.tls1_2
              maxProtoVersion := ProtoVersion.tlsMax
              cipherList := some (defaultOpensslCiphers ++ ":!kRSA") }⟩) ∧
    (∀ s : String, s ≠ "" →
      strcasecmpAsciiEq (some s) "SSL" = false →
      strcasecmpAsciiEq (some s) "TLSv1" = false →
      strcasecmpAsciiEq (some s) "TLSv1_1" = false →
      strcasecmpAsciiEq (some s) "TLSv1_2" = false →
      strcasecmpAsciiEq (some s) "TLSv1_3" = false →
      strcasecmpAsciiEq (some s) "PFS" = false →
      strcasecmpAsciiEq (some s) "AUTO" = false →
      (be.cipherOk s = true →
        openssl_set_priorities be ctx0 (some s) =
          ⟨0, { ctx0 with
                minProtoVersion := ProtoVersion.tls1_2
                maxProtoVersion := ProtoVersion.tlsMax
                cipherList := some s }⟩) ∧
      (be.cipherOk s = false →
        (openssl_set_priorities be ctx0 (some s)).retval = WGET_E_INVALID ∧
        ∀ (cfg : SslConfig) (env : TrustEnv) (crl : CrlEnv),
          cfg.check_certificate = true → cfg.ca_directory = none →
          cfg.secure_protocol = some s →
          (openssl_init cfg be env crl true ctx0).retval = WGET_E_INVALID)) := by
  refine ⟨fun hc => ?_, fun hc h3 => ?_, fun hc h1 => ?_, fun hc h11 => ?_,
          fun hc h13s h13 => ?_, fun hc h13n => ?_, fun hp => ?_,
          fun s hne h1 h2 h3 h4 h5 h6 h7 => ⟨fun hcs => ?_, fun hcs => ⟨?_, ?_⟩⟩⟩
  · refine ⟨?_, ?_, ?_⟩ <;>
      simp [openssl_set_priorities, (by decide : classify_priority (some "AUTO") = .defaults),
        (by decide : classify_priority (some "TLSv1_2") = .defaults),
        (by decide : classify_priority (some "tlsV1_2") = .defaults),
        hmin, finishCiphers, hc]
  · simp [openssl_set_priorities, (by decide : classify_priority (some "SSL") = .minSsl3),
      hmin, setMinVersion, h3, finishCiphers, hc]
  · simp [openssl_set_priorities, (by decide : classify_priority (some "TLSv1") = .minTls1),
      hmin, setMinVersion, h1, finishCiphers, hc]
  · simp [openssl_set_priorities, (by decide : classify_priority (some "TLSv1_1") = .minTls1_1),
      hmin, setMinVersion, h11, finishCiphers, hc]
  · simp [openssl_set_priorities, (by decide : classify_priority (some "TLSv1_3") = .minTls1_3),
      hmin, setMinVersion, h13s, h13, finishCiphers, hc]
  · simp [openssl_set_priorities, (by decide : classify_priority (some "TLSv1_3") = .minTls1_3),
      hmin, setMinVersion, h13n, finishCiphers, hc]
  · have hstr : ("HIGH:!aNULL:!RC4:!MD5:!SRP:!PSK:!kRSA" : String) =
        defaultOpensslCiphers ++ ":!kRSA" := rfl
    simp [openssl_set_priorities, (by decide : classify_priority (some "PFS") = .pfs),
      hmin, finishCiphers, hstr, hp]
  · have hcl : classify_priority (some s) = .verbatim := by
      simp [classify_priority, h1, h2, h3, h4, h5, h6, h7]
    simp [openssl_set_priorities, hcl, hmin, finishCiphers, hcs]
  · have hcl : classify_priority (some s) = .verbatim := by
      simp [classify_priority, h1, h2, h3, h4, h5, h6, h7]
    simp [openssl_set_priorities, hcl, hmin, finishCiphers, hcs]
  · have hcl : classify_priority (some s) = .verbatim := by
      simp [classify_priority, h1, h2, h3, h4, h5, h6, h7]
    intro cfg env crl hcc hdir hsp
    have hret : (openssl_set_priorities be ctx0 (some s)).retval = WGET_E_INVALID := by
      simp [openssl_set_priorities, hcl, hmin, finishCiphers, hcs]
    simp [openssl_init, hcc, caDirActive, hdir, hsp, hret]

/-- Witness for C8 at concrete back-ends and priority strings. -/
theorem claim_C8_witness :
    openssl_set_priorities beAllOk freshSslCtx (some "AUTO") =
      ⟨0, { freshSslCtx with
            minProtoVersion := ProtoVersion.tls1_2
            maxProtoVersion := ProtoVersion.tlsMax
            cipherList := some defaultOpensslCiphers }⟩ ∧
    openssl_set_priorities beAllOk freshSslCtx (some "SSL") =
      ⟨0, { freshSslCtx with
            minProtoVersion := ProtoVersion.ssl3
            maxProtoVersion := ProtoVersion.tlsMax
            cipherList := some defaultOpensslCiphers }⟩ ∧
    openssl_set_priorities beAllOk freshSslCtx (some "TLSv1_3") =
      ⟨0, { freshSslCtx with
            minProtoVersion := ProtoVersion.tls1_3
            maxProtoVersion := ProtoVersion.tlsMax
            cipherList := some defaultOpensslCiphers }⟩ ∧
    openssl_set_priorities beNo13 freshSslCtx (some "TLSv1_3") =
      ⟨0, { freshSslCtx with
            minProtoVersion := ProtoVersion.tls1_2
            maxProtoVersion := ProtoVersion.tlsMax
            cipherList := some defaultOpensslCiphers }⟩ ∧
    openssl_set_priorities beAllOk freshSslCtx (some "PFS") =
      ⟨0, { freshSslCtx with
            minProtoVersion := ProtoVersion.tls1_2
            maxProtoVersion := ProtoVersion.tlsMax
            cipherList := some (defaultOpensslCiphers ++ ":!kRSA") }⟩ ∧
    openssl_set_priorities beAllOk freshSslCtx (some "MYLIST") =
      ⟨0, { freshSslCtx with
            minProtoVersion := ProtoVersion.tls1_2
            maxProtoVersion := ProtoVersion.tlsMax
            cipherList := some "MYLIST" }⟩ ∧
    (openssl_set_priorities beReject freshSslCtx (some "NOT-A-CIPHER")).retval =
      WGET_E_INVALID ∧
    (openssl_init cfgBadPrio beReject trustEnvAllOk crlEnvOk true freshSslCtx).retval =
      WGET_E_INVALID := by
  refine ⟨((claim_C8_priorities beAllOk freshSslCtx rfl).1 rfl).1,
          (claim_C8_priorities beAllOk freshSslCtx rfl).2.1 rfl rfl,
          (claim_C8_priorities beAllOk freshSslCtx rfl).2.2.2.2.1 rfl rfl rfl,
          (claim_C8_priorities beNo13 freshSslCtx rfl).2.2.2.2.2.1 rfl rfl,
          (claim_C8_priorities beAllOk freshSslCtx rfl).2.2.2.2.2.2.1 rfl,
          ((claim_C8_priorities beAllOk freshSslCtx rfl).2.2.2.2.2.2.2 "MYLIST"
            (by decide) (by decide) (by decide) (by decide) (by decide) (by decide)
            (by decide) (by decide)).1 rfl,
          ?_, ?_⟩
  · exact (((claim_C8_priorities beReject freshSslCtx rfl).2.2.2.2.2.2.2 "NOT-A-CIPHER"
      (by decide) (by decide) (by decide) (by decide) (by decide) (by decide)
      (by decide) (by decide)).2 (by decide)).1
  · exact (((claim_C8_priorities beReject freshSslCtx rfl).2.2.2.2.2.2.2 "NOT-A-CIPHER"
      (by decide) (by decide) (by decide) (by decide) (by decide) (by decide)
      (by decide) (by decide)).2 (by decide)).2 cfgBadPrio trustEnvAllOk crlEnvOk
      rfl rfl rfl

/-- Helper for C9: the handshake loop only reports a wait failure with the
negative value the readiness wait produced. -/
theorem ssl_connect_loop_waitFail_neg (env : OpenEnv) (u : Bool) :
    ∀ (fuel k : Nat) (e : Int),
      ssl_connect_loop env u fuel k = some (.waitFail e) → e < 0 := by
  intro fuel
  induction fuel with
  | zero => intro k e h; simp [ssl_connect_loop] at h
  | succ f ih =>
    intro k e h
    rw [ssl_connect_loop] at h
    split_ifs at h with hw hc
    · simp only [Option.some.injEq, HandshakeOutcome.waitFail.injEq] at h
      omega
    · simp at h
    · cases hce : env.connectError k with
      | wantRead => rw [hce] at h; exact ih (k + 1) e h
      | wantWrite => rw [hce] at h; exact ih (k + 1) e h
      | otherErr => rw [hce] at h; simp at h

/-- Claim C9: wget_ssl_open returns INVALID immediately — no allocation,
no lazy engine init, connection object untouched — for a null connection
or a negative socket; on every terminating failure the allocated TLS
state is freed and the connection object (in particular its ssl_session
slot) is unchanged; on success the published ssl_session is non-null. -/
theorem claim_C9_open_invariants (env : OpenEnv) (engineInitDone : Bool) (fuel : Nat)
    (tcpOpt : Option WgetTcp) :
    (tcpOpt = none →
      wget_ssl_open env engineInitDone fuel tcpOpt =
        some ⟨WGET_E_INVALID, none, false, false, false⟩) ∧
    (∀ tcp, tcpOpt = some tcp → tcp.sockfd < 0 →
      wget_ssl_open env engineInitDone fuel tcpOpt =
        some ⟨WGET_E_INVALID, some tcp, false, false, false⟩) ∧
    (∀ r, wget_ssl_open env engineInitDone fuel tcpOpt = some r →
      r.retval ≠ WGET_E_SUCCESS → r.sslFreed = r.sslAllocated ∧ r.tcp = tcpOpt) ∧
    (∀ r, wget_ssl_open env engineInitDone fuel tcpOpt = some r →
      r.retval = WGET_E_SUCCESS →
      ∃ tcp2, r.tcp = some tcp2 ∧ tcp2.ssl_session = some ()) := by
  refine ⟨?_, ?_, ?_, ?_⟩
  · rintro rfl
    rfl
  · rintro tcp rfl hneg
    simp [wget_ssl_open, if_pos hneg]
  · intro r hr hne
    rcases tcpOpt with _ | tcp
    · rw [wget_ssl_open] at hr
      simp only [Option.some.injEq] at hr
      subst hr
      exact ⟨rfl, rfl⟩
    · rw [wget_ssl_open] at hr
      by_cases h1 : tcp.sockfd < 0
      · rw [if_pos h1] at hr
        simp only [Option.some.injEq] at hr; subst hr; exact ⟨rfl, rfl⟩
      · rw [if_neg h1] at hr
        by_cases h2 : env.sslNewOk = false
        · rw [if_pos h2] at hr
          simp only [Option.some.injEq] at hr; subst hr; exact ⟨rfl, rfl⟩
        · rw [if_neg h2] at hr
          by_cases h3 : env.setFdOk = false
          · rw [if_pos h3] at hr
            simp only [Option.some.injEq] at hr; subst hr; exact ⟨rfl, rfl⟩
          · rw [if_neg h3] at hr
            by_cases h4 : (env.exIndexOk && env.newExDataOk && env.setExDataOk) = false
            · rw [if_pos h4] at hr
              simp only [Option.some.injEq] at hr; subst hr; exact ⟨rfl, rfl⟩
            · rw [if_neg h4] at hr
              rcases hloop : ssl_connect_loop env (tcp.connect_timeout != 0) fuel 0 with _ | out
              · rw [hloop] at hr; exact absurd hr (by simp)
              · rw [hloop] at hr
                cases out with
                | waitFail e =>
                  simp only [Option.some.injEq] at hr; subst hr; exact ⟨rfl, rfl⟩
                | connected =>
                  simp only [Option.some.injEq] at hr; subst hr; exact absurd rfl hne
                | connectFail =>
                  simp only [Option.some.injEq] at hr; subst hr; exact ⟨rfl, rfl⟩
  · intro r hr he
    rcases tcpOpt with _ | tcp
    · rw [wget_ssl_open] at hr
      simp only [Option.some.injEq] at hr
      subst hr
      simp [WGET_E_INVALID, WGET_E_SUCCESS] at he
    · rw [wget_ssl_open] at hr
      by_cases h1 : tcp.sockfd < 0
      · rw [if_pos h1] at hr
        simp only [Option.some.injEq] at hr; subst hr
        simp [WGET_E_INVALID, WGET_E_SUCCESS] at he
      · rw [if_neg h1] at hr
        by_cases h2 : env.sslNewOk = false
        · rw [if_pos h2] at hr
          simp only [Option.some.injEq] at hr; subst hr
          simp [WGET_E_UNKNOWN, WGET_E_SUCCESS] at he
        · rw [if_neg h2] at hr
          by_cases h3 : env.setFdOk = false
          · rw [if_pos h3] at hr
            simp only [Option.some.injEq] at hr; subst hr
            simp [WGET_E_UNKNOWN, WGET_E_SUCCESS] at he
          · rw [if_neg h3] at hr
            by_cases h4 : (env.exIndexOk && env.newExDataOk && env.setExDataOk) = false
            · rw [if_pos h4] at hr
              simp only [Option.some.injEq] at hr; subst hr
              simp [WGET_E_UNKNOWN, WGET_E_SUCCESS] at he
            · rw [if_neg h4] at hr
              rcases hloop : ssl_connect_loop env (tcp.connect_timeout != 0) fuel 0 with _ | out
              · rw [hloop] at hr; exact absurd hr (by simp)
              · rw [hloop] at hr
                cases out with
                | waitFail e =>
                  simp only [Option.some.injEq] at hr; subst hr
                  have hneg := ssl_connect_loop_waitFail_neg env
                    (tcp.connect_timeout != 0) fuel 0 e hloop
                  simp only [WGET_E_SUCCESS] at he
                  omega
                | connected =>
                  simp only [Option.some.injEq] at hr; subst hr
                  exact ⟨{ tcp with ssl_session := some () }, rfl, rfl⟩
                | connectFail =>
                  simp only [Option.some.injEq] at hr; subst hr
                  simp only [WGET_E_SUCCESS, WGET_E_CERTIFICATE, WGET_E_HANDSHAKE] at he
                  split_ifs at he

/-- Witness for C9 at concrete connections: a null connection, a negative
socket, a fatally failing handshake, and a successful handshake. -/
theorem claim_C9_witness :
    wget_ssl_open envC9ok true 1 none =
      some ⟨WGET_E_INVALID, none, false, false, false⟩ ∧
    wget_ssl_open envC9ok true 1 (some tcpC9bad) =
      some ⟨WGET_E_INVALID, some tcpC9bad, false, false, false⟩ ∧
    ((⟨WGET_E_HANDSHAKE, some tcpC9, true, true, false⟩ : OpenResult).sslFreed =
      (⟨WGET_E_HANDSHAKE, some tcpC9, true, true, false⟩ : OpenResult).sslAllocated ∧
     (⟨WGET_E_HANDSHAKE, some tcpC9, true, true, false⟩ : OpenResult).tcp = some tcpC9) ∧
    ({ tcpC9 with ssl_session := some () } : WgetTcp).ssl_session = some () := by
  refine ⟨(claim_C9_open_invariants envC9ok true 1 none).1 rfl,
          (claim_C9_open_invariants envC9ok true 1 (some tcpC9bad)).2.1 tcpC9bad rfl
            (by decide),
          (claim_C9_open_invariants envC9fail true 1 (some tcpC9)).2.2.1
            ⟨WGET_E_HANDSHAKE, some tcpC9, true, true, false⟩ rfl (by decide),
          ?_⟩
  obtain ⟨t2, ht, hs⟩ := (claim_C9_open_invariants envC9ok true 1 (some tcpC9)).2.2.2
    ⟨WGET_E_SUCCESS, some { tcpC9 with ssl_session := some () }, true, false, false⟩
    rfl rfl
  simp only [Option.some.injEq] at ht
  rw [ht]
  exact hs
